import Mathlib

/-!
Verification development for the payments core of `ireti-pos-light-ce`.

The definitions below are a shallow embedding of the Stripe payment
integration found in `payments/services.py`, `payments/models.py` and
`payments/views.py`:

* monetary amounts are Python `Decimal` values; on the magnitudes handled
  here (the model's monetary columns are `max_digits=10`, far below the
  default 28-significant-digit `Decimal` context) `Decimal` arithmetic is
  exact, so amounts are embedded as rationals `ℚ`;
* Django model rows become Lean structures restricted to the columns the
  payments core reads or writes;
* Python exceptions become `Except String`;
* dictionaries parsed from JSON become structures of `Option` fields,
  mirroring the `.get(...)` accesses performed by the handlers.
-/

namespace Payments

/-- Python `int(...)` applied to an exact decimal value: truncation toward
zero. -/
def pyIntTrunc (q : ℚ) : ℤ := if 0 ≤ q then ⌊q⌋ else ⌈q⌉

/-- Embedding of `StripePaymentService._amount_to_cents`
(`payments/services.py` lines 390-400): `return int(amount * 100)`.
Note the source performs no validation whatsoever. -/
def amount_to_cents (amount : ℚ) : ℤ := pyIntTrunc (amount * 100)

/-- Embedding of `StripePaymentService._cents_to_amount`
(`payments/services.py` lines 402-412): `return Decimal(str(cents)) / 100`. -/
def cents_to_amount (cents : ℤ) : ℚ := (cents : ℚ) / 100

/-- Embedding of the amount validation performed by
`StripePaymentService.create_payment_intent` (`payments/services.py`
lines 148-153): `if amount <= 0: raise PaymentAmountError(...)`, then the
conversion `amount_cents = self._amount_to_cents(amount)`. -/
def create_payment_intent_validate (amount : ℚ) : Except String ℤ :=
  if amount ≤ 0 then Except.error "PaymentAmountError" else Except.ok (amount_to_cents amount)

/-- Model of Python's `str.split(sep)` for a one-character separator,
written on character lists so it computes by structural recursion. -/
def pySplitChar (c : Char) : List Char → List (List Char)
  | [] => [[]]
  | x :: xs =>
    if x = c then [] :: pySplitChar c xs
    else
      match pySplitChar c xs with
      | [] => [[x]]
      | y :: ys => (x :: y) :: ys

/-- Model of Python's `str.split(sep, 1)` for a one-character separator:
the text before the first occurrence and everything after it, or `none`
when the separator does not occur. -/
def pySplitOnceChar (c : Char) : List Char → Option (List Char × List Char)
  | [] => none
  | x :: xs =>
    if x = c then some ([], xs)
    else (pySplitOnceChar c xs).map (fun p => (x :: p.1, p.2))

/-- Model of Python's `str.strip()`: drop whitespace from both ends. -/
def pyStrip (l : List Char) : List Char :=
  ((l.dropWhile Char.isWhitespace).reverse.dropWhile Char.isWhitespace).reverse

/-- Model of Python's `str.startswith`. -/
def pyStartsWith (s pre : String) : Bool := pre.data.isPrefixOf s.data

/-- Model of Python's `str.upper()` on the ASCII strings handled here. -/
def pyUpper (s : String) : String := String.mk (s.data.map Char.toUpper)

/-- Functional model of Python's `hmac.compare_digest` as used at
`payments/services.py` line 457.  `compare_digest` performs a
constant-time comparison; its input-output behaviour is plain equality,
which is what a shallow embedding can capture. -/
def compare_digest (a b : String) : Bool := a == b

/-- Model of one `key, value = item.split('=', 1)` step
(`payments/services.py` line 438).  When the item contains no `=` the
unpacking raises `ValueError`, modelled as `none`. -/
def splitKeyValue (item : List Char) : Option (String × String) :=
  match pySplitOnceChar '=' item with
  | none => none
  | some (k, v) => some (String.mk k, String.mk v)

/-- Parsing every `item` of `signature_header.split(',')`
(`payments/services.py` lines 436-439); any item without `=` aborts the
whole parse with an exception. -/
def parseSigItems (header : String) : Option (List (String × String)) :=
  (pySplitChar ',' header.data).mapM splitKeyValue

/-- Lookup in the dictionary built by repeated `signature_data[key] = value`
assignments: the last assignment to a key wins. -/
def dictGet (l : List (String × String)) (k : String) : Option String :=
  (l.reverse.find? (fun p => p.1 == k)).map (fun p => p.2)

/-- Header-parsing pipeline of `verify_webhook_signature`
(`payments/services.py` lines 435-446): split the header on commas, split
each item once on `=`, read keys `t` and `v1`, and treat a missing or
empty value as a malformed header (`if not timestamp or not signature`). -/
def parseSigFields (header : String) : Option (String × String) :=
  match parseSigItems header with
  | none => none
  | some items =>
    match dictGet items "t", dictGet items "v1" with
    | some t, some v => if t = "" ∨ v = "" then none else some (t, v)
    | _, _ => none

/-- Model of Python `int(s)` on a string: optional surrounding whitespace,
an optional sign, then decimal digits; anything else raises `ValueError`,
modelled as `none`. -/
def pyToInt (s : String) : Option ℤ :=
  let t := pyStrip s.data
  let signed : Bool × List Char :=
    match t with
    | '-' :: rest => (true, rest)
    | '+' :: rest => (false, rest)
    | l => (false, l)
  if signed.2 = [] ∨ ¬ (signed.2.all Char.isDigit) then none
  else
    let mag : ℤ := signed.2.foldl (fun acc c => 10 * acc + ((c.toNat - 48 : ℕ) : ℤ)) 0
    some (if signed.1 then -mag else mag)

/-- Body of `verify_webhook_signature` once a non-empty secret is
configured (`payments/services.py` lines 434-473).  The `try`/`except`
wrapper turns every parsing exception into `False`, which the model folds
into the `none` branches.  The digest comparison happens before the
timestamp is parsed, exactly as in the source. -/
def verify_with_secret (secret : String) (hmacSha256Hex : String → String → String)
    (now : ℤ) (payload header : String) : Bool :=
  match parseSigFields header with
  | none => false
  | some (tstr, sig) =>
    let signed_payload := tstr ++ "." ++ payload
    let expected := hmacSha256Hex secret signed_payload
    if ¬ compare_digest expected sig then false
    else
      match pyToInt tstr with
      | none => false
      | some ts => decide ((now - ts).natAbs ≤ 300)

/-- Embedding of `StripePaymentService.verify_webhook_signature`
(`payments/services.py` lines 415-473).  `webhook_secret` is the resolved
`STRIPE_WEBHOOK_ENDPOINT_SECRET or STRIPE_WEBHOOK_SECRET` setting; a
missing or empty secret makes `if not webhook_secret` true and the
function returns `True` for every payload (`return True  # Allow webhooks
if no secret configured (dev mode)`).  There is no configuration flag
guarding this branch. -/
def verify_webhook_signature (webhook_secret : Option String)
    (hmacSha256Hex : String → String → String) (now : ℤ) (payload header : String) : Bool :=
  match webhook_secret with
  | none => true
  | some secret =>
    if secret = "" then true
    else verify_with_secret secret hmacSha256Hex now payload header

/-- Columns of a `PaymentTransaction` row (`payments/models.py` lines
77-212) that the payments core reads or writes.  `processed_at_set`
abstracts the nullable `processed_at` timestamp to whether it is set. -/
structure PaymentTransaction where
  stripe_payment_intent_id : String
  amount : ℚ
  currency : String
  status : String
  stripe_status : Option String
  failure_reason : Option String
  last_payment_error : Option String
  processed_at_set : Bool
deriving DecidableEq

/-- Columns of a `PaymentRefund` row (`payments/models.py` lines 310-466).
`pk` stands for the row's primary key; `payment_transaction_pid` is the
parent transaction's unique `stripe_payment_intent_id`, standing in for
the `payment_transaction` foreign key. -/
structure PaymentRefund where
  pk : Nat
  stripe_refund_id : Option String
  payment_transaction_pid : String
  amount : ℚ
  currency : String
  reason : String
  status : String
  processed_at_set : Bool
deriving DecidableEq

/-- Columns of a `PaymentWebhook` row (`payments/models.py` lines 469-520).
The model has exactly these persisted fields: note there is a
`processing_error` column but no `processing_result` column. -/
structure PaymentWebhook where
  stripe_event_id : String
  event_type : String
  processed : Bool
  processing_error : Option String
  processed_at_set : Bool
deriving DecidableEq

/-- Projections of the `data.object` dictionary of a Stripe event, as read
by the handlers via `.get(...)`: a missing key yields `none`. -/
structure StripeObject where
  id : Option String
  status : Option String
  amount : Option ℤ
  currency : Option String
  payment_intent : Option String
  reason : Option String
  last_payment_error_message : Option String
  last_payment_error_code : Option String
  failure_message : Option String
deriving DecidableEq

/-- A Stripe webhook event: `event_data['id']`, `event_data['type']` and
`event_data['data']['object']`. -/
structure StripeEvent where
  id : String
  type : String
  obj : StripeObject
deriving DecidableEq

/-- Result dictionaries returned by `process_webhook_event` and the
handlers, one constructor per dictionary shape in the source. -/
inductive Outcome where
  | already_processed (event_id : String)
  | processed_pi (event_type : String) (payment_intent_id : Option String)
      (old_status new_status : String)
  | no_local_record (event_type : String) (payment_intent_id : Option String)
  | no_payment_intent (charge_id : Option String)
  | no_local_record_charge (payment_intent_id : String) (charge_id : Option String)
  | processed_charge (event_type : String) (charge_id : Option String)
      (payment_intent_id : String)
  | processed_refund (event_type : String) (refund_id : Option String)
      (payment_intent_id : Option String) (created : Bool)
  | no_payment_transaction (refund_id payment_intent_id : Option String)
  | logged (event_type : String) (terminal_object_id : Option String)
  | unhandled (event_type : String)
  | errorResult (message event_id : String)
deriving DecidableEq

/-- Value of the `'status'` key of each result dictionary. -/
def Outcome.statusField : Outcome → String
  | .already_processed _ => "already_processed"
  | .processed_pi _ _ _ _ => "processed"
  | .no_local_record _ _ => "no_local_record"
  | .no_payment_intent _ => "no_payment_intent"
  | .no_local_record_charge _ _ => "no_local_record"
  | .processed_charge _ _ _ => "processed"
  | .processed_refund _ _ _ _ => "processed"
  | .no_payment_transaction _ _ => "no_payment_transaction"
  | .logged _ _ => "logged"
  | .unhandled _ => "unhandled"
  | .errorResult _ _ => "error"

/-- HTTP status chosen by `StripeWebhookView.post` from the processing
result (`payments/views.py` lines 441-457): 500 when the result's status
is `error`, 200 otherwise. -/
def webhook_http_status (o : Outcome) : Nat :=
  if o.statusField = "error" then 500 else 200

/-- Embedding of `PaymentTransaction.save` (`payments/models.py` lines
200-212) followed by the UPDATE of the row: the hook re-reads the stored
row and stamps `processed_at` on the first transition into `succeeded`.
The row is addressed by its unique `stripe_payment_intent_id`. -/
def txSave (db : List PaymentTransaction) (updated : PaymentTransaction) :
    List PaymentTransaction :=
  db.map fun r =>
    if r.stripe_payment_intent_id == updated.stripe_payment_intent_id then
      if r.status ≠ "succeeded" ∧ updated.status = "succeeded" then
        { updated with processed_at_set := true }
      else updated
    else r

/-- Embedding of `PaymentRefund.save` (`payments/models.py` lines 435-451)
followed by the UPDATE of the row, addressed by primary key.  The
currency-inheritance branch is omitted: every path modelled here writes a
non-empty currency. -/
def refundSave (db : List PaymentRefund) (updated : PaymentRefund) :
    List PaymentRefund :=
  db.map fun r =>
    if r.pk == updated.pk then
      if r.status ≠ "succeeded" ∧ updated.status = "succeeded" then
        { updated with processed_at_set := true }
      else updated
    else r

/-- Embedding of `StripePaymentService._handle_payment_intent_webhook`
(`payments/services.py` lines 567-638).  The local transaction is fetched
by `stripe_payment_intent_id`; the event's raw `status` is assigned to
both `status` and `stripe_status` without any terminal-state guard and
without passing through `_map_stripe_status`.  Assigning a missing status
would make the later `save()` violate the NOT NULL column constraint,
modelled as an error. -/
def handle_payment_intent_webhook (event_type : String) (pi : StripeObject)
    (txs : List PaymentTransaction) :
    Except String (List PaymentTransaction × Outcome) :=
  match txs.find? (fun t => some t.stripe_payment_intent_id == pi.id) with
  | none => Except.ok (txs, .no_local_record event_type pi.id)
  | some tx =>
    match pi.status with
    | none => Except.error "IntegrityError: NOT NULL constraint failed: status"
    | some new_status =>
      let old_status := tx.status
      let t1 := { tx with status := new_status, stripe_status := some new_status }
      let t2 :=
        if event_type = "payment_intent.succeeded" then
          { t1 with processed_at_set := true }
        else if event_type = "payment_intent.payment_failed" then
          { t1 with
            failure_reason := some (pi.last_payment_error_message.getD "Unknown error"),
            last_payment_error := some (pi.last_payment_error_message.getD "Unknown error") }
        else if event_type = "payment_intent.canceled" then
          { t1 with status := "canceled" }
        else t1
      Except.ok (txSave txs t2, .processed_pi event_type pi.id old_status new_status)

/-- Embedding of `StripePaymentService._handle_charge_webhook`
(`payments/services.py` lines 640-677). -/
def handle_charge_webhook (event_type : String) (charge : StripeObject)
    (txs : List PaymentTransaction) :
    Except String (List PaymentTransaction × Outcome) :=
  match charge.payment_intent with
  | none => Except.ok (txs, .no_payment_intent charge.id)
  | some pid =>
    match txs.find? (fun t => t.stripe_payment_intent_id == pid) with
    | none => Except.ok (txs, .no_local_record_charge pid charge.id)
    | some tx =>
      let t2 :=
        if event_type = "charge.succeeded" then
          { tx with status := "succeeded", processed_at_set := true }
        else if event_type = "charge.failed" then
          { tx with
            status := "failed",
            failure_reason := some (charge.failure_message.getD "Charge failed") }
        else tx
      Except.ok (txSave txs t2, .processed_charge event_type charge.id pid)

/-- Embedding of `StripePaymentService._handle_refund_webhook`
(`payments/services.py` lines 679-736).  When no local refund matches the
processor refund id, the row is created with `PaymentRefund.objects.create`
— which never calls `PaymentRefund.clean`, so no refund-sum check runs on
this path.  Creating with no parent transaction (`payment_intent` missing)
violates the NOT NULL foreign-key column, modelled as an error. -/
def handle_refund_webhook (event_type : String) (refund : StripeObject)
    (txs : List PaymentTransaction) (refunds : List PaymentRefund) :
    Except String (List PaymentRefund × Outcome) :=
  match refunds.find? (fun r => r.stripe_refund_id == refund.id) with
  | some pr =>
    let r1 :=
      if event_type = "refund.created" then { pr with status := "pending" }
      else if event_type = "refund.updated" then
        { pr with status := refund.status.getD pr.status }
      else pr
    Except.ok (refundSave refunds r1,
      .processed_refund event_type refund.id refund.payment_intent false)
  | none =>
    match refund.payment_intent with
    | none => Except.error "IntegrityError: NOT NULL constraint failed: payment_transaction"
    | some pid =>
      match txs.find? (fun t => t.stripe_payment_intent_id == pid) with
      | none => Except.ok (refunds, .no_payment_transaction refund.id refund.payment_intent)
      | some _tx =>
        let newRow : PaymentRefund :=
          { pk := refunds.length
            stripe_refund_id := refund.id
            payment_transaction_pid := pid
            amount := cents_to_amount (refund.amount.getD 0)
            currency := pyUpper (refund.currency.getD "usd")
            reason := refund.reason.getD "requested_by_customer"
            status := refund.status.getD "pending"
            processed_at_set := false }
        let r1 :=
          if event_type = "refund.created" then { newRow with status := "pending" }
          else if event_type = "refund.updated" then
            { newRow with status := refund.status.getD newRow.status }
          else newRow
        Except.ok (refundSave (newRow :: refunds) r1,
          .processed_refund event_type refund.id refund.payment_intent true)

/-- Embedding of `StripePaymentService._handle_terminal_webhook`
(`payments/services.py` lines 738-748): log-only. -/
def handle_terminal_webhook (event_type : String) (obj : StripeObject) : Outcome :=
  .logged event_type obj.id

/-- Embedding of `StripePaymentService._handle_webhook_event_type`
(`payments/services.py` lines 541-565): route by event-type prefix. -/
def handle_webhook_event_type (ev : StripeEvent)
    (txs : List PaymentTransaction) (refunds : List PaymentRefund) :
    Except String (List PaymentTransaction × List PaymentRefund × Outcome) :=
  if pyStartsWith ev.type "payment_intent." then
    (handle_payment_intent_webhook ev.type ev.obj txs).map (fun p => (p.1, refunds, p.2))
  else if pyStartsWith ev.type "charge." then
    (handle_charge_webhook ev.type ev.obj txs).map (fun p => (p.1, refunds, p.2))
  else if pyStartsWith ev.type "refund." then
    (handle_refund_webhook ev.type ev.obj txs refunds).map (fun p => (txs, p.1, p.2))
  else if pyStartsWith ev.type "terminal." then
    Except.ok (txs, refunds, handle_terminal_webhook ev.type ev.obj)
  else
    Except.ok (txs, refunds, .unhandled ev.type)

/-- Full database state: the Ledger (transactions and refunds) plus the
webhook receipts table. -/
structure DBState where
  transactions : List PaymentTransaction
  refunds : List PaymentRefund
  webhooks : List PaymentWebhook
deriving DecidableEq

/-- Marking a receipt processed (`payments/services.py` lines 509-513):
`processed = True`, `processed_at = now`, save.  The dictionary stored in
`webhook_record.processing_result` on the same lines is assigned to an
attribute that is not a model column, so nothing else is persisted. -/
def markProcessed (ws : List PaymentWebhook) (eid : String) : List PaymentWebhook :=
  ws.map fun w =>
    if w.stripe_event_id == eid then { w with processed := true, processed_at_set := true }
    else w

/-- Handling branch of `process_webhook_event` (`payments/services.py`
lines 506-539).  On success the receipt is marked processed; on an
exception the source assigns the error dictionary to the non-column
attribute `processing_result` and saves, so no persisted field changes:
the receipt keeps `processed=False` and `processing_error=None`, and the
caller receives the `{'status': 'error', ...}` dictionary. -/
def runHandling (ev : StripeEvent) (st : DBState) : DBState × Outcome :=
  match handle_webhook_event_type ev st.transactions st.refunds with
  | Except.ok (txs, refs, result) =>
    ({ transactions := txs, refunds := refs,
       webhooks := markProcessed st.webhooks ev.id }, result)
  | Except.error e => (st, .errorResult e ev.id)

/-- Embedding of `StripePaymentService.process_webhook_event`
(`payments/services.py` lines 475-539): `get_or_create` the receipt by
event id; short-circuit with `{'status': 'already_processed'}` when a
processed receipt exists; otherwise handle (a found-but-unprocessed
receipt re-enters handling). -/
def process_webhook_event (ev : StripeEvent) (st : DBState) : DBState × Outcome :=
  match st.webhooks.find? (fun w => w.stripe_event_id == ev.id) with
  | some w =>
    if w.processed then (st, .already_processed ev.id)
    else runHandling ev st
  | none =>
    let rec0 : PaymentWebhook :=
      { stripe_event_id := ev.id, event_type := ev.type, processed := false,
        processing_error := none, processed_at_set := false }
    runHandling ev { st with webhooks := rec0 :: st.webhooks }

/-- Sum of the amounts of the refunds of parent `pid` whose status is
`succeeded` or `pending` — the quantity bounded by the refund-sum
invariant. -/
def refundSumSucceededPending (refunds : List PaymentRefund) (pid : String) : ℚ :=
  ((refunds.filter fun r =>
    r.payment_transaction_pid == pid &&
      (r.status == "succeeded" || r.status == "pending")).map (fun r => r.amount)).sum

/-- Embedding of `PaymentRefund.clean` (`payments/models.py` lines
453-466): refunds of the same parent with status `succeeded` or `pending`,
excluding `self`, are summed; if the sum plus `self.amount` exceeds the
parent amount a `ValidationError` is raised. -/
def PaymentRefund.clean (refunds : List PaymentRefund) (parentAmount : ℚ)
    (self : PaymentRefund) : Except String Unit :=
  let existing := refunds.filter fun r =>
    r.payment_transaction_pid == self.payment_transaction_pid &&
      (r.status == "succeeded" || r.status == "pending") && r.pk != self.pk
  let total : ℚ := (existing.map (fun r => r.amount)).sum
  if parentAmount < total + self.amount then
    Except.error "ValidationError: Refund amount exceeds remaining refundable balance"
  else Except.ok ()

/-- Django's validate-then-insert path (`full_clean()` followed by the
INSERT), the only route on which `PaymentRefund.clean` runs; neither
`CreateRefundView.post` nor `_handle_refund_webhook` takes it — both call
`PaymentRefund.objects.create`, which skips `clean`. -/
def refund_attempt_validated (refunds : List PaymentRefund) (parentAmount : ℚ)
    (self : PaymentRefund) : Except String (List PaymentRefund) :=
  match PaymentRefund.clean refunds parentAmount self with
  | Except.error e => Except.error e
  | Except.ok _ => Except.ok (self :: refunds)

/-- Internal status vocabulary of `PaymentTransaction.PAYMENT_STATUS_CHOICES`
(`payments/models.py` lines 82-88). -/
def PAYMENT_STATUS_CHOICES : List String :=
  ["pending", "processing", "succeeded", "failed", "canceled"]

/-- Domain of the mapping table in `_map_stripe_status`: the Stripe
PaymentIntent statuses the service knows about. -/
def STRIPE_INTENT_STATUSES : List String :=
  ["requires_payment_method", "requires_confirmation", "requires_action",
   "processing", "requires_capture", "canceled", "succeeded"]

/-- Embedding of `StripePaymentService._map_stripe_status`
(`payments/services.py` lines 826-845): `status_map.get(stripe_status,
stripe_status)`. -/
def map_stripe_status (s : String) : String :=
  if s = "requires_payment_method" then "pending"
  else if s = "requires_confirmation" then "pending"
  else if s = "requires_action" then "pending"
  else if s = "processing" then "processing"
  else if s = "requires_capture" then "processing"
  else if s = "canceled" then "canceled"
  else if s = "succeeded" then "succeeded"
  else s

/-- Row written by `CreatePaymentIntentView.post` (`payments/views.py`
lines 115-123): the Stripe intent's `status` string is stored raw,
without passing through `_map_stripe_status`. -/
def create_payment_intent_view_store (intent_id intent_status : String)
    (amount : ℚ) (currency : String) : PaymentTransaction :=
  { stripe_payment_intent_id := intent_id
    amount := amount
    currency := pyUpper currency
    status := intent_status
    stripe_status := none
    failure_reason := none
    last_payment_error := none
    processed_at_set := false }

/-- Row written by `StripePaymentService.link_transaction_to_payment`
(`payments/services.py` lines 750-779): this writer does map the Stripe
status through `_map_stripe_status`. -/
def link_transaction_to_payment_store (intent_id intent_status : String)
    (amount_cents : ℤ) (currency : String) : PaymentTransaction :=
  { stripe_payment_intent_id := intent_id
    amount := cents_to_amount amount_cents
    currency := currency
    status := map_stripe_status intent_status
    stripe_status := some intent_status
    failure_reason := none
    last_payment_error := none
    processed_at_set := false }

/-- Status of the transaction with intent id `pid` after a handler run:
`none` when the handler raised or no such row exists. -/
def txStatusAfter (res : Except String (List PaymentTransaction × Outcome))
    (pid : String) : Option String :=
  match res with
  | Except.ok (txs, _) =>
    (txs.find? (fun t => t.stripe_payment_intent_id == pid)).map (fun t => t.status)
  | Except.error _ => none

/-- Refund rows after a refund-handler run (`[]` when the handler raised:
the model treats a raising handler as leaving no committed rows). -/
def refundsAfter (res : Except String (List PaymentRefund × Outcome)) :
    List PaymentRefund :=
  match res with
  | Except.ok (rs, _) => rs
  | Except.error _ => []

/-- The `'status'` field of a refund-handler outcome, `none` on an
exception. -/
def refundOutcomeStatus (res : Except String (List PaymentRefund × Outcome)) :
    Option String :=
  match res with
  | Except.ok (_, o) => some o.statusField
  | Except.error _ => none

end Payments

namespace Payments

/-- C6: for every positive amount with at most two fractional digits, the
codec `_cents_to_amount ∘ _amount_to_cents` is the identity. -/
theorem money_codec_left_inverse (a : ℚ) (hpos : 0 < a)
    (h2 : ∃ n : ℤ, (n : ℚ) = a * 100) :
    cents_to_amount (amount_to_cents a) = a := by
  obtain ⟨n, hn⟩ := h2
  have h0 : 0 ≤ a * 100 := by positivity
  unfold cents_to_amount amount_to_cents pyIntTrunc
  rw [if_pos h0, ← hn, Int.floor_intCast, hn]
  field_simp

/-- Witness for `money_codec_left_inverse` at the concrete amount 15.99. -/
theorem money_codec_left_inverse_witness :
    (0 : ℚ) < 1599 / 100 ∧ cents_to_amount (amount_to_cents (1599 / 100 : ℚ)) = 1599 / 100 :=
  ⟨by norm_num, money_codec_left_inverse (1599 / 100) (by norm_num) ⟨1599, by norm_num⟩⟩

/-- C10: for every nonnegative integer number of cents `n`,
`_amount_to_cents (_cents_to_amount n) = n`: the codec is also a right
inverse on integer cents. -/
theorem money_codec_right_inverse (n : ℕ) :
    amount_to_cents (cents_to_amount (n : ℤ)) = (n : ℤ) := by
  unfold amount_to_cents cents_to_amount pyIntTrunc
  have h : (((n : ℤ) : ℚ)) / 100 * 100 = ((n : ℤ) : ℚ) := by
    field_simp
  rw [h, if_pos (by positivity), Int.floor_intCast]

/-- C7 counterexample: `_amount_to_cents` never raises.  On the sub-cent
input 10.555 it silently returns 1055 (truncation), and on the
non-positive input -5 it silently returns -500; the claimed
`InvalidAmount` failure does not exist in the source, whose body is the
single expression `int(amount * 100)`. -/
theorem amount_to_cents_no_validation_counterexample :
    amount_to_cents (10555 / 1000 : ℚ) = 1055 ∧ amount_to_cents (-5 : ℚ) = -500 := by
  constructor
  · unfold amount_to_cents pyIntTrunc
    rw [show ((10555 : ℚ) / 1000) * 100 = 2111 / 2 by norm_num,
      if_pos (by norm_num), Int.floor_eq_iff]
    norm_num
  · unfold amount_to_cents pyIntTrunc
    rw [show ((-5 : ℚ) * 100) = ((-500 : ℤ) : ℚ) by norm_num,
      if_neg (by norm_num), Int.ceil_intCast]

/-- C7 amended: the only validation on this path lives in
`create_payment_intent`, which raises `PaymentAmountError` exactly for
non-positive amounts; `_amount_to_cents` itself silently truncates. -/
theorem create_payment_intent_rejects_nonpositive (a : ℚ) :
    create_payment_intent_validate a = Except.error "PaymentAmountError" ↔ a ≤ 0 := by
  unfold create_payment_intent_validate
  by_cases h : a ≤ 0 <;> simp [h]

/-- C5: with a non-empty webhook secret configured,
`verify_webhook_signature` returns `false` when the header is malformed,
when the provided digest differs from `HMAC-SHA256(secret, "<ts>.<body>")`,
and when the header timestamp differs from the current time by more than
300 seconds; it is a total `Bool`-valued function, so it never raises. -/
theorem verify_webhook_signature_rejects (secret : String)
    (hm : String → String → String) (now : ℤ) (payload header : String)
    (hs : secret ≠ "") :
    (parseSigFields header = none →
      verify_webhook_signature (some secret) hm now payload header = false) ∧
    (∀ t v, parseSigFields header = some (t, v) →
      v ≠ hm secret (t ++ "." ++ payload) →
      verify_webhook_signature (some secret) hm now payload header = false) ∧
    (∀ t v ts, parseSigFields header = some (t, v) → pyToInt t = some ts →
      300 < (now - ts).natAbs →
      verify_webhook_signature (some secret) hm now payload header = false) := by
  have hv : verify_webhook_signature (some secret) hm now payload header
      = verify_with_secret secret hm now payload header := by
    show (if secret = "" then true
      else verify_with_secret secret hm now payload header) = _
    rw [if_neg hs]
  refine ⟨fun h => ?_, fun t v h hne => ?_, fun t v ts h hts hgt => ?_⟩
  · rw [hv]
    unfold verify_with_secret
    rw [h]
  · rw [hv]
    unfold verify_with_secret
    rw [h]
    have hb : (hm secret (t ++ "." ++ payload) == v) = false :=
      beq_eq_false_iff_ne.mpr (Ne.symm hne)
    simp [compare_digest, hb]
  · rw [hv]
    unfold verify_with_secret
    rw [h]
    by_cases hc : compare_digest (hm secret (t ++ "." ++ payload)) v
    · simp [hc, hts, Nat.not_le.mpr hgt]
    · simp [hc]

/-- Witness for `verify_webhook_signature_rejects`: with a configured
secret, the malformed header string `garbage` is rejected. -/
theorem verify_webhook_signature_rejects_witness :
    verify_webhook_signature (some "whsec_test") (fun _ m => m) 0 "body" "garbage" = false :=
  (verify_webhook_signature_rejects "whsec_test" (fun _ m => m) 0 "body" "garbage"
    (by decide)).1 (by decide)

/-- C4 counterexample: with no webhook secret configured and no flag of any
kind (the source has no insecure/dev-mode setting), an event with a
tampered body and a garbage signature header is accepted. -/
theorem no_secret_accepts_all_counterexample :
    verify_webhook_signature none (fun _ m => m) 0 "tampered body" "not-a-valid-header" = true :=
  rfl

/-- C4 amended: omitting the webhook secret silently disables verification:
`verify_webhook_signature` returns `true` for every payload and header in
that configuration, with no explicit insecure-mode flag guarding it. -/
theorem verify_no_secret_always_true (hm : String → String → String)
    (now : ℤ) (payload header : String) :
    verify_webhook_signature none hm now payload header = true := rfl

end Payments

namespace Payments

/-- Helper: mapping a conditional pointwise update over a list moves
`find?` to the updated image of the found element. -/
theorem find?_update {α : Type} (l : List α) (p : α → Bool) (f : α → α) (r : α)
    (hf : ∀ x, p x = true → p (f x) = true) (h : l.find? p = some r) :
    (l.map fun x => if p x then f x else x).find? p = some (f r) := by
  induction l with
  | nil => simp at h
  | cons a t ih =>
    by_cases ha : p a = true
    · rw [List.find?_cons_of_pos t ha] at h
      have : a = r := by injection h
      subst this
      rw [List.map_cons, if_pos ha]
      exact List.find?_cons_of_pos _ (hf a ha)
    · rw [List.find?_cons_of_neg t ha] at h
      rw [List.map_cons, if_neg ha]
      rw [List.find?_cons_of_neg _ ha]
      exact ih h

/-- Helper: after `txSave db u`, the row found under `u`'s payment-intent
id carries `u`'s status (the save hook only adjusts `processed_at`). -/
theorem txSave_find?_status (txs : List PaymentTransaction) (u r : PaymentTransaction)
    (hfind : txs.find?
      (fun t => t.stripe_payment_intent_id == u.stripe_payment_intent_id) = some r) :
    ((txSave txs u).find?
      (fun t => t.stripe_payment_intent_id == u.stripe_payment_intent_id)).map
      (fun t => t.status) = some u.status := by
  unfold txSave
  rw [find?_update txs _ _ r ?hf hfind]
  case hf =>
    intro x _
    dsimp only
    split
    · exact beq_self_eq_true _
    · exact beq_self_eq_true _
  split
  · rfl
  · rfl

/-- Claim C1, counterexample: the ledger starts with one transaction of
amount 10.00 and no refunds; a `refund.created` webhook for that
transaction with amount 2000 cents (20.00) is accepted with outcome
`processed`, a refund row is created, and the sum of succeeded-or-pending
refunds becomes 20 > 10 — the attempt exceeding the parent amount is not
rejected and the ledger does change, because `_handle_refund_webhook`
creates refund rows with `objects.create`, which never runs
`PaymentRefund.clean`. -/
theorem refund_sum_invariant_counterexample :
    refundOutcomeStatus (handle_refund_webhook "refund.created"
      { id := some "re_1", status := some "pending", amount := some 2000,
        currency := some "usd", payment_intent := some "pi_1", reason := none,
        last_payment_error_message := none, last_payment_error_code := none,
        failure_message := none }
      [{ stripe_payment_intent_id := "pi_1", amount := 10, currency := "USD",
         status := "succeeded", stripe_status := some "succeeded",
         failure_reason := none, last_payment_error := none, processed_at_set := true }]
      []) = some "processed" ∧
    (refundsAfter (handle_refund_webhook "refund.created"
      { id := some "re_1", status := some "pending", amount := some 2000,
        currency := some "usd", payment_intent := some "pi_1", reason := none,
        last_payment_error_message := none, last_payment_error_code := none,
        failure_message := none }
      [{ stripe_payment_intent_id := "pi_1", amount := 10, currency := "USD",
         status := "succeeded", stripe_status := some "succeeded",
         failure_reason := none, last_payment_error := none, processed_at_set := true }]
      [])).length = 1 ∧
    refundSumSucceededPending (refundsAfter (handle_refund_webhook "refund.created"
      { id := some "re_1", status := some "pending", amount := some 2000,
        currency := some "usd", payment_intent := some "pi_1", reason := none,
        last_payment_error_message := none, last_payment_error_code := none,
        failure_message := none }
      [{ stripe_payment_intent_id := "pi_1", amount := 10, currency := "USD",
         status := "succeeded", stripe_status := some "succeeded",
         failure_reason := none, last_payment_error := none, processed_at_set := true }]
      [])) "pi_1" = 20 ∧ (10 : ℚ) < 20 := by
  refine ⟨by decide, by decide, ?_, by norm_num⟩
  show ([cents_to_amount 2000] : List ℚ).sum = 20
  simp only [List.sum_cons, List.sum_nil, add_zero, cents_to_amount]
  norm_num

/-- Claim C1, amended: `PaymentRefund.clean` does enforce the refund-sum
bound, and any refund accepted through the validate-then-save path
(`refund_attempt_validated`, the only route that runs `clean`) leaves the
succeeded-or-pending refund sum of the parent within the parent amount;
a violating attempt is rejected with `ValidationError` and no row is
written.  The webhook and synchronous-view creation paths bypass `clean`,
as the counterexample shows. -/
theorem refund_clean_preserves_invariant (refunds : List PaymentRefund)
    (parentAmount : ℚ) (self : PaymentRefund) (out : List PaymentRefund)
    (hfresh : ∀ r ∈ refunds, r.pk ≠ self.pk)
    (hamt : 0 ≤ self.amount)
    (hok : refund_attempt_validated refunds parentAmount self = Except.ok out) :
    refundSumSucceededPending out self.payment_transaction_pid ≤ parentAmount := by
  unfold refund_attempt_validated at hok
  cases hclean : PaymentRefund.clean refunds parentAmount self with
  | error e => rw [hclean] at hok; exact absurd hok (by simp)
  | ok u =>
    rw [hclean] at hok
    simp only [Except.ok.injEq] at hok
    subst hok
    unfold PaymentRefund.clean at hclean
    dsimp only at hclean
    split at hclean
    · exact absurd hclean (by simp)
    · rename_i hle
      push_neg at hle
      have hfilter :
          (refunds.filter fun r =>
            r.payment_transaction_pid == self.payment_transaction_pid &&
              (r.status == "succeeded" || r.status == "pending") && r.pk != self.pk)
          = refunds.filter fun r =>
            r.payment_transaction_pid == self.payment_transaction_pid &&
              (r.status == "succeeded" || r.status == "pending") := by
        apply List.filter_congr
        intro x hx
        have hne : (x.pk != self.pk) = true := bne_iff_ne.mpr (hfresh x hx)
        rw [hne, Bool.and_true]
      rw [hfilter] at hle
      unfold refundSumSucceededPending
      rw [List.filter_cons]
      split
      · rw [List.map_cons, List.sum_cons]
        linarith
      · linarith

/-- Witness for `refund_clean_preserves_invariant`: a 4.00 refund
validated against a 10.00 parent with no prior refunds is accepted and
the resulting sum 4.00 stays within 10.00. -/
theorem refund_clean_preserves_invariant_witness :
    refundSumSucceededPending
      [{ pk := 0, stripe_refund_id := some "re_w", payment_transaction_pid := "pi_1",
         amount := 4, currency := "USD", reason := "requested_by_customer",
         status := "pending", processed_at_set := false }] "pi_1" ≤ 10 :=
  refund_clean_preserves_invariant [] 10
    { pk := 0, stripe_refund_id := some "re_w", payment_transaction_pid := "pi_1",
      amount := 4, currency := "USD", reason := "requested_by_customer",
      status := "pending", processed_at_set := false }
    [{ pk := 0, stripe_refund_id := some "re_w", payment_transaction_pid := "pi_1",
       amount := 4, currency := "USD", reason := "requested_by_customer",
       status := "pending", processed_at_set := false }]
    (by simp) (by norm_num)
    (by norm_num [refund_attempt_validated, PaymentRefund.clean])

/-- Claim C2, counterexample: a transaction that reached `succeeded`
receives a `payment_intent.payment_failed` event whose intent status is
`requires_payment_method`; after `_handle_payment_intent_webhook` the
stored status is `requires_payment_method`, no longer `succeeded` — the
handler has no terminal-state guard. -/
theorem first_terminal_wins_counterexample :
    txStatusAfter (handle_payment_intent_webhook "payment_intent.payment_failed"
      { id := some "pi_1", status := some "requires_payment_method", amount := some 2500,
        currency := some "usd", payment_intent := none, reason := none,
        last_payment_error_message := some "Your card was declined.",
        last_payment_error_code := some "card_declined", failure_message := none }
      [{ stripe_payment_intent_id := "pi_1", amount := 25, currency := "USD",
         status := "succeeded", stripe_status := some "succeeded",
         failure_reason := none, last_payment_error := none, processed_at_set := true }])
      "pi_1" = some "requires_payment_method" ∧
    "requires_payment_method" ≠ "succeeded" := by
  constructor
  · decide
  · decide

/-- Claim C2, amended: `_handle_payment_intent_webhook` applies the
event's status last-write-wins: for every ledger and every
`payment_intent.payment_failed` event whose intent id matches a stored
transaction, the stored status afterwards equals the event's status,
whatever the previous status (including terminal `succeeded`). -/
theorem payment_intent_webhook_last_write_wins (txs : List PaymentTransaction)
    (pi : StripeObject) (r : PaymentTransaction) (s : String)
    (hfind : txs.find? (fun t => some t.stripe_payment_intent_id == pi.id) = some r)
    (hs : pi.status = some s) :
    txStatusAfter (handle_payment_intent_webhook "payment_intent.payment_failed" pi txs)
      r.stripe_payment_intent_id = some s := by
  have hpr := List.find?_some hfind
  have hid : pi.id = some r.stripe_payment_intent_id := (eq_of_beq hpr).symm
  have hq : (fun t : PaymentTransaction => some t.stripe_payment_intent_id == pi.id)
      = (fun t => t.stripe_payment_intent_id == r.stripe_payment_intent_id) := by
    funext t
    rw [hid]
    rfl
  rw [hq] at hfind
  unfold handle_payment_intent_webhook
  rw [hq, hfind, hs]
  simp only [txStatusAfter]
  have := txSave_find?_status txs
    { r with
      status := s, stripe_status := some s,
      failure_reason := some (pi.last_payment_error_message.getD "Unknown error"),
      last_payment_error := some (pi.last_payment_error_message.getD "Unknown error") }
    r hfind
  simp only [String.reduceEq, if_false, if_true, reduceIte] at *
  exact this

/-- Witness for `payment_intent_webhook_last_write_wins` on a concrete
succeeded transaction. -/
theorem payment_intent_webhook_last_write_wins_witness :
    txStatusAfter (handle_payment_intent_webhook "payment_intent.payment_failed"
      { id := some "pi_9", status := some "requires_payment_method", amount := some 1000,
        currency := some "usd", payment_intent := none, reason := none,
        last_payment_error_message := none, last_payment_error_code := none,
        failure_message := none }
      [{ stripe_payment_intent_id := "pi_9", amount := 10, currency := "USD",
         status := "succeeded", stripe_status := some "succeeded",
         failure_reason := none, last_payment_error := none, processed_at_set := true }])
      "pi_9" = some "requires_payment_method" :=
  payment_intent_webhook_last_write_wins
    [{ stripe_payment_intent_id := "pi_9", amount := 10, currency := "USD",
       status := "succeeded", stripe_status := some "succeeded",
       failure_reason := none, last_payment_error := none, processed_at_set := true }]
    { id := some "pi_9", status := some "requires_payment_method", amount := some 1000,
      currency := some "usd", payment_intent := none, reason := none,
      last_payment_error_message := none, last_payment_error_code := none,
      failure_message := none }
    { stripe_payment_intent_id := "pi_9", amount := 10, currency := "USD",
      status := "succeeded", stripe_status := some "succeeded",
      failure_reason := none, last_payment_error := none, processed_at_set := true }
    "requires_payment_method" (by decide) rfl

/-- Claim C3, counterexample: delivering the same event twice yields one
receipt and no second handling, but the second response is the fixed
`already_processed` dictionary, not the stored outcome of the first
processing (which was `logged`; in fact the first outcome is assigned to
`processing_result`, which is not a `PaymentWebhook` column, so it is
never stored at all). -/
theorem webhook_replay_outcome_counterexample :
    (process_webhook_event
      { id := "evt_1", type := "terminal.reader.action_succeeded",
        obj := { id := some "tmr_1", status := none, amount := none, currency := none,
                 payment_intent := none, reason := none, last_payment_error_message := none,
                 last_payment_error_code := none, failure_message := none } }
      ⟨[], [], []⟩).2 = .logged "terminal.reader.action_succeeded" (some "tmr_1") ∧
    (process_webhook_event
      { id := "evt_1", type := "terminal.reader.action_succeeded",
        obj := { id := some "tmr_1", status := none, amount := none, currency := none,
                 payment_intent := none, reason := none, last_payment_error_message := none,
                 last_payment_error_code := none, failure_message := none } }
      (process_webhook_event
        { id := "evt_1", type := "terminal.reader.action_succeeded",
          obj := { id := some "tmr_1", status := none, amount := none, currency := none,
                   payment_intent := none, reason := none, last_payment_error_message := none,
                   last_payment_error_code := none, failure_message := none } }
        ⟨[], [], []⟩).1).2 = .already_processed "evt_1" ∧
    Outcome.already_processed "evt_1" ≠
      .logged "terminal.reader.action_succeeded" (some "tmr_1") := by
  refine ⟨by decide, by decide, by decide⟩

/-- Claim C3, amended: once a receipt for the event id exists with
`processed=true`, `process_webhook_event` returns the fixed
`already_processed` outcome and leaves the entire database state —
transactions, refunds and receipts — unchanged, so redelivery causes no
second Ledger mutation and no second receipt row. -/
theorem webhook_idempotent_short_circuit (ev : StripeEvent) (st : DBState)
    (w : PaymentWebhook)
    (hfind : st.webhooks.find? (fun x => x.stripe_event_id == ev.id) = some w)
    (hproc : w.processed = true) :
    process_webhook_event ev st = (st, .already_processed ev.id) := by
  unfold process_webhook_event
  simp [hfind, hproc]

/-- Witness for `webhook_idempotent_short_circuit` on a concrete
processed receipt. -/
theorem webhook_idempotent_short_circuit_witness :
    process_webhook_event
      { id := "evt_9", type := "charge.succeeded",
        obj := { id := none, status := none, amount := none, currency := none,
                 payment_intent := none, reason := none, last_payment_error_message := none,
                 last_payment_error_code := none, failure_message := none } }
      ⟨[], [], [{ stripe_event_id := "evt_9", event_type := "charge.succeeded",
                  processed := true, processing_error := none, processed_at_set := true }]⟩
      = (⟨[], [], [{ stripe_event_id := "evt_9", event_type := "charge.succeeded",
                     processed := true, processing_error := none, processed_at_set := true }]⟩,
         .already_processed "evt_9") :=
  webhook_idempotent_short_circuit
    { id := "evt_9", type := "charge.succeeded",
      obj := { id := none, status := none, amount := none, currency := none,
               payment_intent := none, reason := none, last_payment_error_message := none,
               last_payment_error_code := none, failure_message := none } }
    ⟨[], [], [{ stripe_event_id := "evt_9", event_type := "charge.succeeded",
                processed := true, processing_error := none, processed_at_set := true }]⟩
    { stripe_event_id := "evt_9", event_type := "charge.succeeded",
      processed := true, processing_error := none, processed_at_set := true }
    (by decide) rfl

/-- Claim C8, counterexample: `CreatePaymentIntentView.post` stores the
raw Stripe status; a freshly created intent has status
`requires_payment_method`, which is outside
`PAYMENT_STATUS_CHOICES = {pending, processing, succeeded, failed,
canceled}`. -/
theorem status_vocabulary_counterexample :
    (create_payment_intent_view_store "pi_2" "requires_payment_method" 10 "usd").status ∉
      PAYMENT_STATUS_CHOICES ∧
    (create_payment_intent_view_store "pi_2" "requires_payment_method" 10 "usd").status =
      "requires_payment_method" := by
  refine ⟨by decide, by decide⟩

/-- Claim C8, amended: the writer that does translate statuses,
`link_transaction_to_payment` via `_map_stripe_status`, keeps every known
Stripe intent status inside the internal vocabulary; the create view and
the webhook handlers store the raw Stripe status and escape it. -/
theorem map_stripe_status_in_choices (s : String) (h : s ∈ STRIPE_INTENT_STATUSES) :
    map_stripe_status s ∈ PAYMENT_STATUS_CHOICES := by
  simp only [STRIPE_INTENT_STATUSES, List.mem_cons, List.not_mem_nil, or_false] at h
  rcases h with rfl | rfl | rfl | rfl | rfl | rfl | rfl <;> decide

/-- Witness for `map_stripe_status_in_choices` at `requires_capture`. -/
theorem map_stripe_status_in_choices_witness :
    map_stripe_status "requires_capture" ∈ PAYMENT_STATUS_CHOICES :=
  map_stripe_status_in_choices "requires_capture" (by decide)

/-- Claim C9, counterexample: a `refund.created` event with no
`payment_intent` makes the handler raise (NOT NULL foreign key); the
dispatcher returns the error outcome, but the receipt's
`processing_error` field remains `None` — the error message is assigned
to `processing_result`, which is not a model column, so it is recorded
nowhere. -/
theorem webhook_error_not_recorded_counterexample :
    (process_webhook_event
      { id := "evt_err", type := "refund.created",
        obj := { id := some "re_9", status := none, amount := none, currency := none,
                 payment_intent := none, reason := none, last_payment_error_message := none,
                 last_payment_error_code := none, failure_message := none } }
      ⟨[], [], []⟩).2
      = .errorResult "IntegrityError: NOT NULL constraint failed: payment_transaction"
        "evt_err" ∧
    ((process_webhook_event
      { id := "evt_err", type := "refund.created",
        obj := { id := some "re_9", status := none, amount := none, currency := none,
                 payment_intent := none, reason := none, last_payment_error_message := none,
                 last_payment_error_code := none, failure_message := none } }
      ⟨[], [], []⟩).1.webhooks.find? (fun w => w.stripe_event_id == "evt_err")).map
      (fun w => w.processing_error) = some none := by
  refine ⟨by decide, by decide⟩

/-- Claim C9, amended: when a handler raises on a first-seen event, the
dispatcher catches it and returns the error outcome (no exception
propagates), the HTTP layer answers 500, the Ledger is unchanged, and the
receipt row exists with `processed=false` — so a redelivery re-enters
handling — but with `processing_error=none`: the error message is not
recorded on the receipt. -/
theorem webhook_error_handling (ev : StripeEvent) (st : DBState) (e : String)
    (hnew : st.webhooks.find? (fun w => w.stripe_event_id == ev.id) = none)
    (herr : handle_webhook_event_type ev st.transactions st.refunds = Except.error e) :
    (process_webhook_event ev st).2 = .errorResult e ev.id ∧
    webhook_http_status (process_webhook_event ev st).2 = 500 ∧
    (process_webhook_event ev st).1.transactions = st.transactions ∧
    (process_webhook_event ev st).1.refunds = st.refunds ∧
    (process_webhook_event ev st).1.webhooks.find? (fun w => w.stripe_event_id == ev.id) =
      some { stripe_event_id := ev.id, event_type := ev.type, processed := false,
             processing_error := none, processed_at_set := false } := by
  have hrun : process_webhook_event ev st
      = ({ st with webhooks :=
            { stripe_event_id := ev.id, event_type := ev.type, processed := false,
              processing_error := none, processed_at_set := false } :: st.webhooks },
          Outcome.errorResult e ev.id) := by
    unfold process_webhook_event
    simp only [hnew]
    unfold runHandling
    dsimp only
    rw [herr]
  rw [hrun]
  refine ⟨rfl, rfl, rfl, rfl, ?_⟩
  exact List.find?_cons_of_pos _ (beq_self_eq_true _)

/-- Witness for `webhook_error_handling` on a concrete failing
`refund.created` event. -/
theorem webhook_error_handling_witness :
    (process_webhook_event
      { id := "evt_w9", type := "refund.created",
        obj := { id := some "re_w9", status := none, amount := none, currency := none,
                 payment_intent := none, reason := none, last_payment_error_message := none,
                 last_payment_error_code := none, failure_message := none } }
      ⟨[], [], []⟩).2
      = .errorResult "IntegrityError: NOT NULL constraint failed: payment_transaction"
        "evt_w9" ∧
    webhook_http_status (process_webhook_event
      { id := "evt_w9", type := "refund.created",
        obj := { id := some "re_w9", status := none, amount := none, currency := none,
                 payment_intent := none, reason := none, last_payment_error_message := none,
                 last_payment_error_code := none, failure_message := none } }
      ⟨[], [], []⟩).2 = 500 ∧
    (process_webhook_event
      { id := "evt_w9", type := "refund.created",
        obj := { id := some "re_w9", status := none, amount := none, currency := none,
                 payment_intent := none, reason := none, last_payment_error_message := none,
                 last_payment_error_code := none, failure_message := none } }
      ⟨[], [], []⟩).1.transactions = [] ∧
    (process_webhook_event
      { id := "evt_w9", type := "refund.created",
        obj := { id := some "re_w9", status := none, amount := none, currency := none,
                 payment_intent := none, reason := none, last_payment_error_message := none,
                 last_payment_error_code := none, failure_message := none } }
      ⟨[], [], []⟩).1.refunds = [] ∧
    (process_webhook_event
      { id := "evt_w9", type := "refund.created",
        obj := { id := some "re_w9", status := none, amount := none, currency := none,
                 payment_intent := none, reason := none, last_payment_error_message := none,
                 last_payment_error_code := none, failure_message := none } }
      ⟨[], [], []⟩).1.webhooks.find? (fun w => w.stripe_event_id == "evt_w9") =
      some { stripe_event_id := "evt_w9", event_type := "refund.created", processed := false,
             processing_error := none, processed_at_set := false } :=
  webhook_error_handling
    { id := "evt_w9", type := "refund.created",
      obj := { id := some "re_w9", status := none, amount := none, currency := none,
               payment_intent := none, reason := none, last_payment_error_message := none,
               last_payment_error_code := none, failure_message := none } }
    ⟨[], [], []⟩
    "IntegrityError: NOT NULL constraint failed: payment_transaction"
    rfl rfl

end Payments
